import Mathlib

/-!
Shallow embedding of the transcription prototype client (`src/script.js`).

The client is a single event handler: on a file-input change event it
shows a loading state, POSTs the selected file as multipart form data to
`${window.location.origin}/api/transcribe`, and renders either the
returned transcript or a formatted error message into the DOM.

We model the handler as a function from the file selection and the
network outcome to a trace of primitive effects (DOM writes and HTTP
requests), and the DOM as a small record folded over that trace.
-/

namespace Transcription

/-- A selected file: opaque bytes plus filename and MIME type. -/
structure FileRef where
  name : String
  mime : String
  bytes : List Nat
deriving DecidableEq, Repr

/-- A JSON response body, restricted to the two fields the client ever
reads: `transcription` (success path) and `detail` (error path).
`none` models an absent field. -/
structure JsonBody where
  transcription : Option String
  detail : Option String
deriving DecidableEq, Repr

/-- The empty JSON object `{}` produced by `.catch(() => ({}))`. -/
def emptyJson : JsonBody := ⟨none, none⟩

/-- The body of an HTTP response: either parseable JSON or unparseable
text (carrying the message of the `SyntaxError` that `response.json()`
would reject with). -/
inductive Body where
  | parsed (j : JsonBody)
  | unparseable (parseErrMsg : String)
deriving DecidableEq, Repr

/-- The outcome of `fetch`: a network-level rejection (carrying the
rejection's message), or a response with status, status text and body. -/
inductive FetchOutcome where
  | networkError (msg : String)
  | response (status : Nat) (statusText : String) (body : Body)
deriving DecidableEq, Repr

/-- An HTTP request as the client constructs it: method, URL and the
multipart form fields (`FormData` entries). -/
structure Request where
  method : String
  url : String
  formFields : List (String × FileRef)
deriving DecidableEq, Repr

/-- Model of `const TRANSCRIBE_URL = ${API_BASE_URL}/api/transcribe` where
`API_BASE_URL = window.location.origin`. -/
def TRANSCRIBE_URL (origin : String) : String := origin ++ "/api/transcribe"

/-- The request built by `transcribeWithServerless`:
`fetch(TRANSCRIBE_URL, { method: POST, body: formData })` with
`formData.append('file', file)` as its only entry. -/
def buildRequest (origin : String) (file : FileRef) : Request :=
  ⟨"POST", TRANSCRIBE_URL origin, [("file", file)]⟩

/-- JavaScript `x || dflt` for an optional string: an absent field and
the empty string are both falsy. -/
def jsOr : Option String → String → String
  | none, d => d
  | some s, d => if s = "" then d else s

/-- Model of `response.ok`: status in the inclusive range 200..299. -/
def responseOk (status : Nat) : Bool := 200 ≤ status && status < 300

/-- The error message thrown on a non-ok response:
`Transcription failed: ${response.status} ${response.statusText} - ${errorData.detail || 'Unknown error'}`. -/
def errorMessage (status : Nat) (statusText : String) (errorData : JsonBody) : String :=
  "Transcription failed: " ++ toString status ++ " " ++ statusText ++ " - " ++
    jsOr errorData.detail "Unknown error"

/-- Model of `transcribeWithServerless` after the fetch resolves: `.error m`
models a thrown `Error` with message `m` (a fetch rejection propagates;
a non-ok response throws the formatted message, with the error body
falling back to `{}` when unparseable; an ok response returns
`response.json()`, whose parse failure propagates as a rejection). -/
def transcribeWithServerless : FetchOutcome → Except String JsonBody
  | .networkError msg => .error msg
  | .response status statusText body =>
    if responseOk status then
      match body with
      | .parsed j => .ok j
      | .unparseable m => .error m
    else
      let errorData : JsonBody :=
        match body with
        | .parsed j => j
        | .unparseable _ => emptyJson
      .error (errorMessage status statusText errorData)

/-- A primitive effect of the handler: a DOM write on the transcript
element (or its container) or an HTTP request. -/
inductive Event where
  | setDisplay (v : String)
  | setHTML (v : String)
  | setClass (v : String)
  | httpPost (r : Request)
deriving DecidableEq, Repr

/-- The fixed troubleshooting tail of the error template in `showError`. -/
def troubleshootText : String :=
  "\n\nMake sure to:\n1. Use a supported audio format (MP3, WAV, M4A, FLAC, etc.)\n2. Check your internet connection\n3. File is not empty or corrupted\n4. File is under 25MB"

/-- Model of `showLoading`: `result.style.display = 'block'`;
`transcript.innerHTML = 'Processing audio with AI...'`;
`transcript.className = 'loading'`. -/
def showLoadingEvents : List Event :=
  [.setDisplay "block", .setHTML "Processing audio with AI...", .setClass "loading"]

/-- Model of `showResult(text)`: `transcript.innerHTML = text || 'No transcript generated.'`;
`transcript.className = ''`. -/
def showResultEvents (text : Option String) : List Event :=
  [.setHTML (jsOr text "No transcript generated."), .setClass ""]

/-- Model of `showError(message)`: `transcript.innerHTML = Error: ${message}` plus
the troubleshooting checklist; `transcript.className = 'error'`. -/
def showErrorEvents (message : String) : List Event :=
  [.setHTML ("Error: " ++ message ++ troubleshootText), .setClass "error"]

/-- Model of `handleFileUpload` as its trace of effects: if no file is selected it
returns immediately; otherwise it shows the loading state, issues the one
POST, and routes the awaited outcome to `showResult` (reading the
`transcription` field) or, inside the `catch`, to `showError` with the
error's message. -/
def handleFileUploadEvents (origin : String) :
    Option FileRef → FetchOutcome → List Event
  | none, _ => []
  | some file, outcome =>
    showLoadingEvents ++ Event.httpPost (buildRequest origin file) ::
      (match transcribeWithServerless outcome with
       | .ok j => showResultEvents j.transcription
       | .error m => showErrorEvents m)

/-- The DOM state the client mutates: the result container's
`style.display`, and the transcript element's `innerHTML` and
`className`. -/
structure DomState where
  resultDisplay : String
  transcriptHTML : String
  transcriptClass : String
deriving DecidableEq, Repr

/-- The page's initial state: result area hidden, transcript empty. -/
def initialState : DomState := ⟨"none", "", ""⟩

/-- Apply one effect to the DOM state (an HTTP request leaves it alone). -/
def applyEvent (s : DomState) : Event → DomState
  | .setDisplay v => ⟨v, s.transcriptHTML, s.transcriptClass⟩
  | .setHTML v => ⟨s.resultDisplay, v, s.transcriptClass⟩
  | .setClass v => ⟨s.resultDisplay, s.transcriptHTML, v⟩
  | .httpPost _ => s

/-- Fold a trace of effects over a DOM state. -/
def runEvents (s : DomState) (es : List Event) : DomState := es.foldl applyEvent s

/-- Model of `handleFileUpload` as a DOM-state transformer. -/
def handleFileUpload (origin : String) (fileSel : Option FileRef)
    (outcome : FetchOutcome) (s : DomState) : DomState :=
  runEvents s (handleFileUploadEvents origin fileSel outcome)

/-- The HTTP requests issued along a trace. -/
def requestsOf (es : List Event) : List Request :=
  es.filterMap fun e =>
    match e with
    | .httpPost r => some r
    | _ => none

/-- The number of error renders (writes of the `error` CSS class) along
a trace. -/
def errorRenderCount (es : List Event) : Nat :=
  (es.filter fun e =>
    match e with
    | .setClass "error" => true
    | _ => false).length

/-- Holds when `pat` occurs as a contiguous substring of `s`. -/
def containsStr (s pat : String) : Prop := ∃ a b, a ++ (pat ++ b) = s

/-- A fetch outcome on which the client's upload fails: a network-level
rejection, a non-2xx response, or an unparseable body of a 2xx response. -/
def failureOutcome : FetchOutcome → Prop
  | .networkError _ => True
  | .response status _ body =>
      responseOk status = false ∨ ∃ m, body = .unparseable m

theorem transcribe_nonok (status : Nat) (st : String) (body : Body)
    (h : responseOk status = false) :
    transcribeWithServerless (.response status st body) =
      .error (errorMessage status st
        (match body with | .parsed j => j | .unparseable _ => emptyJson)) := by
  simp [transcribeWithServerless, h]

theorem handle_error_trace (origin : String) (f : FileRef) (outcome : FetchOutcome)
    (m : String) (hm : transcribeWithServerless outcome = .error m) :
    handleFileUploadEvents origin (some f) outcome =
      showLoadingEvents ++ Event.httpPost (buildRequest origin f) :: showErrorEvents m := by
  simp [handleFileUploadEvents, hm]

theorem handle_ok_trace (origin : String) (f : FileRef) (outcome : FetchOutcome)
    (j : JsonBody) (hm : transcribeWithServerless outcome = .ok j) :
    handleFileUploadEvents origin (some f) outcome =
      showLoadingEvents ++ Event.httpPost (buildRequest origin f) ::
        showResultEvents j.transcription := by
  simp [handleFileUploadEvents, hm]

theorem handle_error_state (origin : String) (f : FileRef) (outcome : FetchOutcome)
    (m : String) (s : DomState) (hm : transcribeWithServerless outcome = .error m) :
    handleFileUpload origin (some f) outcome s =
      ⟨"block", "Error: " ++ m ++ troubleshootText, "error"⟩ := by
  rw [handleFileUpload, handle_error_trace origin f outcome m hm]
  simp [runEvents, showLoadingEvents, showErrorEvents, applyEvent]

theorem handle_ok_state (origin : String) (f : FileRef) (outcome : FetchOutcome)
    (j : JsonBody) (s : DomState) (hm : transcribeWithServerless outcome = .ok j) :
    handleFileUpload origin (some f) outcome s =
      ⟨"block", jsOr j.transcription "No transcript generated.", ""⟩ := by
  rw [handleFileUpload, handle_ok_trace origin f outcome j hm]
  simp [runEvents, showLoadingEvents, showResultEvents, applyEvent]

/-- C1: for every file-selection event with a file present, the handler
issues exactly one POST request, its target is the fixed same-origin path
`/api/transcribe`, and its body is a multipart form payload containing
the selected file under the single field name `file`. -/
theorem upload_issues_single_post (origin : String) (f : FileRef)
    (outcome : FetchOutcome) :
    requestsOf (handleFileUploadEvents origin (some f) outcome) =
      [⟨"POST", origin ++ "/api/transcribe", [("file", f)]⟩] := by
  cases hm : transcribeWithServerless outcome with
  | ok j =>
    rw [handle_ok_trace origin f outcome j hm]
    simp [requestsOf, showLoadingEvents, showResultEvents, buildRequest, TRANSCRIBE_URL]
  | error m =>
    rw [handle_error_trace origin f outcome m hm]
    simp [requestsOf, showLoadingEvents, showErrorEvents, buildRequest, TRANSCRIBE_URL]

/-- C2: for every upload whose response is 2xx with a JSON body, the
rendered output equals the `transcription` field verbatim when it is a
non-empty string, and equals the literal fallback
"No transcript generated." when the field is the empty string or absent. -/
theorem success_renders_transcript (origin : String) (f : FileRef) (status : Nat)
    (st : String) (j : JsonBody) (s : DomState) (hok : responseOk status = true) :
    (∀ t, j.transcription = some t → t ≠ "" →
      (handleFileUpload origin (some f) (.response status st (.parsed j)) s).transcriptHTML
        = t) ∧
    ((j.transcription = some "" ∨ j.transcription = none) →
      (handleFileUpload origin (some f) (.response status st (.parsed j)) s).transcriptHTML
        = "No transcript generated.") := by
  have hm : transcribeWithServerless (.response status st (.parsed j)) = .ok j := by
    simp [transcribeWithServerless, hok]
  rw [handle_ok_state origin f (.response status st (.parsed j)) j s hm]
  constructor
  · intro t ht hne
    simp [ht, jsOr, hne]
  · intro h
    rcases h with h | h <;> simp [h, jsOr]

/-- Witness for C2: a 200 response with body {transcription: hello world}
renders "hello world"; a 200 response with an empty transcription renders
the fallback. -/
theorem success_renders_transcript_witness :
    (handleFileUpload "http://localhost" (some ⟨"a.mp3", "audio/mpeg", []⟩)
        (.response 200 "OK" (.parsed ⟨some "hello world", none⟩))
        initialState).transcriptHTML = "hello world" ∧
    (handleFileUpload "http://localhost" (some ⟨"a.mp3", "audio/mpeg", []⟩)
        (.response 200 "OK" (.parsed ⟨some "", none⟩))
        initialState).transcriptHTML = "No transcript generated." :=
  ⟨(success_renders_transcript "http://localhost" ⟨"a.mp3", "audio/mpeg", []⟩ 200 "OK"
      ⟨some "hello world", none⟩ initialState (by decide)).1 "hello world" rfl (by decide),
   (success_renders_transcript "http://localhost" ⟨"a.mp3", "audio/mpeg", []⟩ 200 "OK"
      ⟨some "", none⟩ initialState (by decide)).2 (Or.inl rfl)⟩

/-- C3: for every upload whose response is non-2xx — whatever the body —
the rendered error message contains the numeric status code and the
status text, and it also contains the error body's `detail` string when
that field is present (and non-empty). -/
theorem error_renders_status_parts (origin : String) (f : FileRef) (status : Nat)
    (st : String) (body : Body) (s : DomState)
    (hfail : responseOk status = false) :
    containsStr
      (handleFileUpload origin (some f) (.response status st body) s).transcriptHTML
      (toString status) ∧
    containsStr
      (handleFileUpload origin (some f) (.response status st body) s).transcriptHTML
      st ∧
    (∀ j d, body = .parsed j → j.detail = some d → d ≠ "" →
      containsStr
        (handleFileUpload origin (some f) (.response status st body) s).transcriptHTML
        d) := by
  have hm := transcribe_nonok status st body hfail
  have hhtml :
      (handleFileUpload origin (some f) (.response status st body) s).transcriptHTML
        = "Error: " ++ ("Transcription failed: " ++ toString status ++ " " ++ st ++
            " - " ++ jsOr (match body with
              | .parsed j => j
              | .unparseable _ => emptyJson).detail "Unknown error") ++
          troubleshootText := by
    rw [handle_error_state origin f (.response status st body) _ s hm]
    simp [errorMessage]
  refine ⟨?_, ?_, ?_⟩
  · exact ⟨"Error: " ++ "Transcription failed: ",
      " " ++ st ++ " - " ++ jsOr (match body with
        | .parsed j => j
        | .unparseable _ => emptyJson).detail "Unknown error" ++ troubleshootText,
      by rw [hhtml]; simp [← String.append_assoc]⟩
  · exact ⟨"Error: " ++ ("Transcription failed: " ++ (toString status ++ " ")),
      " - " ++ jsOr (match body with
        | .parsed j => j
        | .unparseable _ => emptyJson).detail "Unknown error" ++ troubleshootText,
      by rw [hhtml]; simp [← String.append_assoc]⟩
  · intro j d hb hd hne
    subst hb
    refine ⟨"Error: " ++ ("Transcription failed: " ++
        (toString status ++ (" " ++ (st ++ " - ")))),
      troubleshootText, ?_⟩
    rw [hhtml]
    simp [hd, jsOr, hne, ← String.append_assoc]

/-- Witness for C3: status 413 "Payload Too Large" with body
{detail: file too large} renders a message containing "413",
"Payload Too Large" and "file too large". -/
theorem error_renders_status_parts_witness :
    containsStr
      (handleFileUpload "http://localhost" (some ⟨"a.mp3", "audio/mpeg", []⟩)
        (.response 413 "Payload Too Large" (.parsed ⟨none, some "file too large"⟩))
        initialState).transcriptHTML "413" ∧
    containsStr
      (handleFileUpload "http://localhost" (some ⟨"a.mp3", "audio/mpeg", []⟩)
        (.response 413 "Payload Too Large" (.parsed ⟨none, some "file too large"⟩))
        initialState).transcriptHTML "Payload Too Large" ∧
    containsStr
      (handleFileUpload "http://localhost" (some ⟨"a.mp3", "audio/mpeg", []⟩)
        (.response 413 "Payload Too Large" (.parsed ⟨none, some "file too large"⟩))
        initialState).transcriptHTML "file too large" := by
  have h := error_renders_status_parts "http://localhost" ⟨"a.mp3", "audio/mpeg", []⟩
    413 "Payload Too Large" (.parsed ⟨none, some "file too large"⟩)
    initialState (by decide)
  have ht : toString (413 : Nat) = "413" := by decide
  exact ⟨ht ▸ h.1, h.2.1, h.2.2 ⟨none, some "file too large"⟩ "file too large"
    rfl rfl (by decide)⟩

/-- C4: for every upload whose response is non-2xx with a body that is
not parseable as JSON (the parse failure degrading to the empty error
object) or whose parsed body lacks a `detail` field, the rendered error
message contains the default text "Unknown error". -/
theorem missing_detail_renders_unknown (origin : String) (f : FileRef)
    (status : Nat) (st : String) (body : Body) (s : DomState)
    (hfail : responseOk status = false)
    (hbody : (∃ m, body = .unparseable m) ∨ (∃ j, body = .parsed j ∧ j.detail = none)) :
    (∀ m, body = .unparseable m →
      transcribeWithServerless (.response status st body) =
        .error (errorMessage status st emptyJson)) ∧
    containsStr
      (handleFileUpload origin (some f) (.response status st body) s).transcriptHTML
      "Unknown error" := by
  have hm := transcribe_nonok status st body hfail
  have hdetail :
      (match body with | .parsed j => j | .unparseable _ => emptyJson).detail = none := by
    rcases hbody with ⟨m, rfl⟩ | ⟨j, rfl, hj⟩
    · rfl
    · exact hj
  constructor
  · intro m hmu
    subst hmu
    exact hm
  · have hhtml :
        (handleFileUpload origin (some f) (.response status st body) s).transcriptHTML
          = "Error: " ++ ("Transcription failed: " ++ toString status ++ " " ++ st ++
              " - " ++ "Unknown error") ++ troubleshootText := by
      rw [handle_error_state origin f (.response status st body) _ s hm]
      simp [errorMessage, hdetail, jsOr]
    exact ⟨"Error: " ++ ("Transcription failed: " ++
        (toString status ++ (" " ++ (st ++ " - ")))),
      troubleshootText,
      by rw [hhtml]; simp [← String.append_assoc]⟩

/-- Witness for C4: a 500 response with an unparseable body renders a
message containing "Unknown error", the error body having degraded to
the empty object. -/
theorem missing_detail_renders_unknown_witness :
    (∀ m, (Body.unparseable "oops" : Body) = .unparseable m →
      transcribeWithServerless (.response 500 "Internal Server Error" (.unparseable "oops")) =
        .error (errorMessage 500 "Internal Server Error" emptyJson)) ∧
    containsStr
      (handleFileUpload "http://localhost" (some ⟨"a.mp3", "audio/mpeg", []⟩)
        (.response 500 "Internal Server Error" (.unparseable "oops"))
        initialState).transcriptHTML "Unknown error" :=
  missing_detail_renders_unknown "http://localhost" ⟨"a.mp3", "audio/mpeg", []⟩
    500 "Internal Server Error" (.unparseable "oops") initialState (by decide)
    (Or.inl ⟨"oops", rfl⟩)

/-- C5: every failure of an upload with a file present — network-level
rejection, non-2xx response, or JSON parse failure of a 2xx success
body — is caught at the handler boundary and converted into exactly one
error render interpolating the failure's message into the fixed
troubleshooting template; exactly one request is issued (nothing
retried) and the handler still produces a well-defined final state. -/
theorem failures_caught_single_error_render (origin : String) (f : FileRef)
    (outcome : FetchOutcome) (s : DomState) (hfail : failureOutcome outcome) :
    ∃ m, transcribeWithServerless outcome = .error m ∧
      handleFileUploadEvents origin (some f) outcome =
        showLoadingEvents ++ Event.httpPost (buildRequest origin f) ::
          showErrorEvents m ∧
      errorRenderCount (handleFileUploadEvents origin (some f) outcome) = 1 ∧
      (requestsOf (handleFileUploadEvents origin (some f) outcome)).length = 1 ∧
      handleFileUpload origin (some f) outcome s =
        ⟨"block", "Error: " ++ m ++ troubleshootText, "error"⟩ := by
  have herr : ∃ m, transcribeWithServerless outcome = .error m := by
    cases outcome with
    | networkError msg => exact ⟨msg, rfl⟩
    | response status st body =>
      rcases hfail with hbad | ⟨m, rfl⟩
      · exact ⟨_, transcribe_nonok status st body hbad⟩
      · by_cases hok : responseOk status
        · exact ⟨m, by simp [transcribeWithServerless, hok]⟩
        · exact ⟨_, transcribe_nonok status st _ (by simpa using hok)⟩
  obtain ⟨m, hm⟩ := herr
  refine ⟨m, hm, handle_error_trace origin f outcome m hm, ?_, ?_,
    handle_error_state origin f outcome m s hm⟩
  · rw [handle_error_trace origin f outcome m hm]
    simp [errorRenderCount, showLoadingEvents, showErrorEvents]
  · rw [handle_error_trace origin f outcome m hm]
    simp [requestsOf, showLoadingEvents, showErrorEvents]

/-- Witness for C5: a network-level rejection with message
"Failed to fetch" yields the single error render. -/
theorem failures_caught_single_error_render_witness :
    ∃ m, transcribeWithServerless (.networkError "Failed to fetch") = .error m ∧
      handleFileUploadEvents "http://localhost" (some ⟨"a.mp3", "audio/mpeg", []⟩)
          (.networkError "Failed to fetch") =
        showLoadingEvents ++
          Event.httpPost (buildRequest "http://localhost" ⟨"a.mp3", "audio/mpeg", []⟩) ::
          showErrorEvents m ∧
      errorRenderCount (handleFileUploadEvents "http://localhost"
          (some ⟨"a.mp3", "audio/mpeg", []⟩) (.networkError "Failed to fetch")) = 1 ∧
      (requestsOf (handleFileUploadEvents "http://localhost"
          (some ⟨"a.mp3", "audio/mpeg", []⟩) (.networkError "Failed to fetch"))).length = 1 ∧
      handleFileUpload "http://localhost" (some ⟨"a.mp3", "audio/mpeg", []⟩)
          (.networkError "Failed to fetch") initialState =
        ⟨"block", "Error: " ++ m ++ troubleshootText, "error"⟩ :=
  failures_caught_single_error_render "http://localhost" ⟨"a.mp3", "audio/mpeg", []⟩
    (.networkError "Failed to fetch") initialState trivial

/-- C6: a file-selection event with no file present performs no effect
at all: an empty trace (in particular no network call) and an unchanged
DOM state. -/
theorem no_file_noop (origin : String) (outcome : FetchOutcome) (s : DomState) :
    handleFileUploadEvents origin none outcome = [] ∧
    handleFileUpload origin none outcome s = s := by
  exact ⟨rfl, rfl⟩

/-- C7: with a file present, the trace starts with the three loading
writes (result area visible, placeholder text, `loading` class) and only
then the HTTP POST: the loading prefix itself contains no request, and
running just that prefix leaves the DOM in exactly the loading state. -/
theorem loading_shown_before_post (origin : String) (f : FileRef)
    (outcome : FetchOutcome) (s : DomState) :
    ∃ rest, handleFileUploadEvents origin (some f) outcome =
        showLoadingEvents ++ Event.httpPost (buildRequest origin f) :: rest ∧
      requestsOf showLoadingEvents = [] ∧
      runEvents s showLoadingEvents =
        ⟨"block", "Processing audio with AI...", "loading"⟩ := by
  cases hm : transcribeWithServerless outcome with
  | ok j =>
    exact ⟨showResultEvents j.transcription, handle_ok_trace origin f outcome j hm,
      rfl, rfl⟩
  | error m =>
    exact ⟨showErrorEvents m, handle_error_trace origin f outcome m hm, rfl, rfl⟩

/-- C8: every error render writes transcript text that begins with the
literal prefix "Error: " followed by the failure's message (and then the
fixed troubleshooting tail). -/
theorem error_html_starts_with_error (origin : String) (f : FileRef)
    (outcome : FetchOutcome) (m : String) (s : DomState)
    (hm : transcribeWithServerless outcome = .error m) :
    (handleFileUpload origin (some f) outcome s).transcriptHTML =
      "Error: " ++ (m ++ troubleshootText) := by
  rw [handle_error_state origin f outcome m s hm]
  simp [← String.append_assoc]

/-- Witness for C8: the rendered text for a rejection with message
"boom" starts with "Error: boom". -/
theorem error_html_starts_with_error_witness :
    (handleFileUpload "http://localhost" (some ⟨"a.mp3", "audio/mpeg", []⟩)
        (.networkError "boom") initialState).transcriptHTML =
      "Error: " ++ ("boom" ++ troubleshootText) :=
  error_html_starts_with_error "http://localhost" ⟨"a.mp3", "audio/mpeg", []⟩
    (.networkError "boom") "boom" initialState rfl

theorem display_block_of_upload (origin : String) (f : FileRef)
    (outcome : FetchOutcome) (s : DomState) :
    (handleFileUpload origin (some f) outcome s).resultDisplay = "block" := by
  cases hm : transcribeWithServerless outcome with
  | ok j => rw [handle_ok_state origin f outcome j s hm]
  | error m => rw [handle_error_state origin f outcome m s hm]

theorem display_block_step (origin : String) (fileSel : Option FileRef)
    (outcome : FetchOutcome) (s : DomState) (h : s.resultDisplay = "block") :
    (handleFileUpload origin fileSel outcome s).resultDisplay = "block" := by
  cases fileSel with
  | none => exact h
  | some f => exact display_block_of_upload origin f outcome s

theorem display_block_foldl (origin : String)
    (ops : List (Option FileRef × FetchOutcome)) (s : DomState)
    (h : s.resultDisplay = "block") :
    (ops.foldl (fun st op => handleFileUpload origin op.1 op.2 st)
      s).resultDisplay = "block" := by
  induction ops generalizing s with
  | nil => exact h
  | cons op rest ih =>
    exact ih _ (display_block_step origin op.1 op.2 s h)

/-- C9: once the result area has been made visible by an upload with a
file present, every sequence of subsequent handler runs (successes,
errors, or later uploads, with or without a file) leaves it visible:
`style.display` stays "block" in every reachable state. -/
theorem result_area_stays_visible (origin : String) (f : FileRef)
    (outcome : FetchOutcome) (s : DomState)
    (ops : List (Option FileRef × FetchOutcome)) :
    (ops.foldl (fun st op => handleFileUpload origin op.1 op.2 st)
      (handleFileUpload origin (some f) outcome s)).resultDisplay = "block" :=
  display_block_foldl origin ops _ (display_block_of_upload origin f outcome s)

/-- C10: after a handler run with a file present, the transcript's CSS
class is never left as "loading": it is the empty string exactly when
the transcription call succeeded and "error" exactly when it failed. -/
theorem class_settles_after_upload (origin : String) (f : FileRef)
    (outcome : FetchOutcome) (s : DomState) :
    (handleFileUpload origin (some f) outcome s).transcriptClass ≠ "loading" ∧
    ((handleFileUpload origin (some f) outcome s).transcriptClass = "" ↔
      ∃ j, transcribeWithServerless outcome = .ok j) ∧
    ((handleFileUpload origin (some f) outcome s).transcriptClass = "error" ↔
      ∃ m, transcribeWithServerless outcome = .error m) := by
  cases hm : transcribeWithServerless outcome with
  | ok j =>
    rw [handle_ok_state origin f outcome j s hm]
    refine ⟨by simp, ?_, ?_⟩
    · simp
    · simp
  | error m =>
    rw [handle_error_state origin f outcome m s hm]
    refine ⟨by simp, ?_, ?_⟩
    · simp
    · simp

end Transcription
